import Mathlib

/-!
Verification of `insights_com_chatgpt.py`: a linear Streamlit pipeline that
downloads monthly expenditure archives, assembles them into one table,
filters it through three cascading dropdowns, renders four aggregates, a
bar chart and the table, and asks a chat-completion service for narrative
commentary.

The Python program is shallowly embedded: a dataframe is a `List Row`,
pandas column operations become list operations, Streamlit rendering is an
incrementally emitted event log, and the chat-completion service is an
abstract function that may fail (`Except`).  Monetary values are modelled
as rationals; the pandas NaN produced by `min`/`max`/`mean` on an empty
column is modelled as `Option.none`.
-/

/-- One row of the assembled dataframe (schema after `load_data`'s
column selection and rename). -/
structure Row where
  ano_mes_referencia : String
  orgao_superior_nome : String
  orgao_superior_sigla : String
  orgao_nome : String
  orgao_sigla : String
  item_despesa : String
  natureza_despesa : String
  valor : ℚ
deriving DecidableEq, Repr

/-- `SELECT_ALL = "<Todos>"`, the sentinel appended to every dropdown. -/
def SELECT_ALL : String := "<Todos>"

/-- Python compares strings lexicographically by code point; this is that
comparison on the underlying character lists. -/
def charsLe : List Char → List Char → Bool
  | [], _ => true
  | _ :: _, [] => false
  | a :: as, b :: bs =>
      if a.toNat < b.toNat then true
      else if b.toNat < a.toNat then false
      else charsLe as bs

/-- Python string `<=` (code-point lexicographic). -/
def pyStrLe (s t : String) : Bool := charsLe s.data t.data

/-- Python's `sorted` on a list of strings: a stable ascending sort. -/
def pySorted (l : List String) : List String :=
  List.insertionSort (fun a b => pyStrLe a b = true) l

/-- `pd.unique` keeps the first occurrence of each value, in order of
appearance; `seen` is the hash set of values already emitted. -/
def pdUniqueAux (seen : List String) : List String → List String
  | [] => []
  | a :: l => if a ∈ seen then pdUniqueAux seen l else a :: pdUniqueAux (a :: seen) l

/-- `pd.unique(df[col]).tolist()`. -/
def pdUnique (l : List String) : List String := pdUniqueAux [] l

/-- The option list of one dropdown: `sorted(pd.unique(df[col]).tolist()
+ [SELECT_ALL])` (the sentinel is appended before sorting). -/
def candidates (df : List Row) (col : Row → String) : List String :=
  pySorted (pdUnique (df.map col) ++ [SELECT_ALL])

/-- `if filtro != SELECT_ALL: df = df[df[col] == filtro]` — the filter step
applied after one dropdown selection. -/
def applyFilter (df : List Row) (col : Row → String) (sel : String) : List Row :=
  if sel = SELECT_ALL then df else df.filter (fun r => col r == sel)

/-- `df["valor"].min()`: pandas folds with `min`, returning NaN (here
`none`) on an empty column. -/
def seriesMin : List ℚ → Option ℚ
  | [] => none
  | a :: l =>
      match seriesMin l with
      | none => some a
      | some b => some (min a b)

/-- `df["valor"].max()`: NaN (`none`) on an empty column. -/
def seriesMax : List ℚ → Option ℚ
  | [] => none
  | a :: l =>
      match seriesMax l with
      | none => some a
      | some b => some (max a b)

/-- `df["valor"].sum()`: `0` on an empty column. -/
def seriesSum (l : List ℚ) : ℚ := l.sum

/-- `df["valor"].mean()`: sum divided by length, NaN (`none`) on an empty
column. -/
def seriesMean (l : List ℚ) : Option ℚ :=
  if l.isEmpty then none else some (l.sum / (l.length : ℚ))

/-- `locale.currency(v, grouping=True)` under the pt_BR locale.  The exact
decimal rendering is immaterial to every claim; what matters is that the
function is total: on NaN (`none`) it renders the string "nan" with the
currency symbol, exactly as `locale.currency(float("nan"))` does. -/
def currency : Option ℚ → String
  | none => "R$ nan"
  | some q => "R$ " ++ toString q

/-- One Streamlit rendering call, as an emitted event. -/
inductive Event where
  | title (s : String)
  | text (s : String)
  | selectbox (label : String) (options : List String)
  | metric (label : String) (value : String)
  | barChart (df : List Row) (x y : String)
  | table (df : List Row)
  | markdown (s : String)
deriving DecidableEq, Repr

/-- `create_dashboard`: the three cascading dropdowns (each populated from
the distinct values remaining after the previous filters, sentinel
appended, sorted), the four currency metrics, the bar chart and the
detailed table.  The user's three selections are the `filtro` arguments;
returns the emitted events and the filtered dataframe. -/
def create_dashboard (df : List Row) (filtro1 filtro2 filtro3 : String) :
    List Event × List Row :=
  let cands1 := candidates df (fun r => r.orgao_superior_nome)
  let df1 := applyFilter df (fun r => r.orgao_superior_nome) filtro1
  let cands2 := candidates df1 (fun r => r.orgao_nome)
  let df2 := applyFilter df1 (fun r => r.orgao_nome) filtro2
  let cands3 := candidates df2 (fun r => r.item_despesa)
  let df3 := applyFilter df2 (fun r => r.item_despesa) filtro3
  let vals := df3.map Row.valor
  ([Event.selectbox "Órgão Superior" cands1,
    Event.selectbox "Órgão" cands2,
    Event.selectbox "Item de despesa" cands3,
    Event.metric "Mínimo" (currency (seriesMin vals)),
    Event.metric "Máximo" (currency (seriesMax vals)),
    Event.metric "Média" (currency (seriesMean vals)),
    Event.metric "Soma" (currency (some (seriesSum vals))),
    Event.markdown "### Série temporal",
    Event.barChart df3 "ano_mes_referencia" "valor",
    Event.markdown "### Dados detalhados",
    Event.table df3],
   df3)

/-- The filtered dataframe produced by the dashboard's three filter steps. -/
def dashboardFilter (df : List Row) (filtro1 filtro2 filtro3 : String) : List Row :=
  (create_dashboard df filtro1 filtro2 filtro3).2

-- Basic lemmas about the filter machinery.

theorem mem_pdUniqueAux (seen l : List String) (b : String) :
    b ∈ pdUniqueAux seen l ↔ b ∈ l ∧ b ∉ seen := by
  induction l generalizing seen with
  | nil => simp [pdUniqueAux]
  | cons a l ih =>
      by_cases ha : a ∈ seen
      · rw [pdUniqueAux, if_pos ha, ih]
        constructor
        · rintro ⟨hl, hs⟩; exact ⟨List.mem_cons_of_mem _ hl, hs⟩
        · rintro ⟨hl, hs⟩
          rcases List.mem_cons.mp hl with rfl | hl
          · exact absurd ha hs
          · exact ⟨hl, hs⟩
      · rw [pdUniqueAux, if_neg ha]
        simp only [List.mem_cons, ih]
        by_cases hb : b = a
        · subst hb; simp [ha]
        · simp [hb]

theorem mem_pdUnique (l : List String) (b : String) :
    b ∈ pdUnique l ↔ b ∈ l := by
  rw [pdUnique, mem_pdUniqueAux]; simp

theorem mem_pySorted (l : List String) (b : String) :
    b ∈ pySorted l ↔ b ∈ l :=
  List.mem_insertionSort _

theorem mem_candidates (df : List Row) (col : Row → String) (v : String) :
    v ∈ candidates df col ↔ v ∈ df.map col ∨ v = SELECT_ALL := by
  rw [candidates, mem_pySorted]
  simp [mem_pdUnique]

/-- The dropdown's candidate list with the sentinel removed. -/
def candExcl (df : List Row) (col : Row → String) : List String :=
  (candidates df col).filter (fun v => v != SELECT_ALL)

theorem mem_candExcl (df : List Row) (col : Row → String) (v : String) :
    v ∈ candExcl df col ↔ (v ∈ df.map col ∨ v = SELECT_ALL) ∧ v ≠ SELECT_ALL := by
  rw [candExcl, List.mem_filter, mem_candidates]
  simp [bne_iff_ne]

/-- The cascading-domain property exactly as claimed, at one dataset and
one pair of upstream selections: at each of the three levels, the
candidate set excluding the sentinel equals the set of values of the
corresponding column in the working set filtered by the previous
selections. -/
def cascadeClaimAt (df : List Row) (filtro1 filtro2 : String) : Prop :=
  (∀ v, v ∈ candExcl df (fun r => r.orgao_superior_nome) ↔
      v ∈ df.map (fun r => r.orgao_superior_nome)) ∧
  (∀ v, v ∈ candExcl (applyFilter df (fun r => r.orgao_superior_nome) filtro1)
        (fun r => r.orgao_nome) ↔
      v ∈ (applyFilter df (fun r => r.orgao_superior_nome) filtro1).map
        (fun r => r.orgao_nome)) ∧
  (∀ v, v ∈ candExcl (applyFilter (applyFilter df (fun r => r.orgao_superior_nome) filtro1)
        (fun r => r.orgao_nome) filtro2) (fun r => r.item_despesa) ↔
      v ∈ (applyFilter (applyFilter df (fun r => r.orgao_superior_nome) filtro1)
        (fun r => r.orgao_nome) filtro2).map (fun r => r.item_despesa))

theorem candExcl_eq_of_no_sentinel (df : List Row) (col : Row → String)
    (h : SELECT_ALL ∉ df.map col) (v : String) :
    v ∈ candExcl df col ↔ v ∈ df.map col := by
  rw [mem_candExcl]
  constructor
  · rintro ⟨hv | rfl, hne⟩
    · exact hv
    · exact absurd rfl hne
  · intro hv
    refine ⟨Or.inl hv, ?_⟩
    rintro rfl
    exact h hv

/-- C1 (amended): provided the sentinel string `"<Todos>"` does not itself
occur as a value of the column being offered, each dropdown's candidate
set excluding the sentinel is exactly the set of distinct values of the
corresponding column in the working set filtered by the previous
selections. -/
theorem cascading_candidates_amended (df : List Row) (filtro1 filtro2 : String)
    (h1 : SELECT_ALL ∉ df.map (fun r => r.orgao_superior_nome))
    (h2 : SELECT_ALL ∉ (applyFilter df (fun r => r.orgao_superior_nome) filtro1).map
        (fun r => r.orgao_nome))
    (h3 : SELECT_ALL ∉ (applyFilter (applyFilter df (fun r => r.orgao_superior_nome) filtro1)
        (fun r => r.orgao_nome) filtro2).map (fun r => r.item_despesa)) :
    cascadeClaimAt df filtro1 filtro2 :=
  ⟨candExcl_eq_of_no_sentinel _ _ h1,
   candExcl_eq_of_no_sentinel _ _ h2,
   candExcl_eq_of_no_sentinel _ _ h3⟩

/-- A one-row dataframe whose top-level-organization name is the literal
sentinel string. -/
def dfSentinel : List Row :=
  [{ ano_mes_referencia := "202101", orgao_superior_nome := "<Todos>",
     orgao_superior_sigla := "TD", orgao_nome := "Org A", orgao_sigla := "OA",
     item_despesa := "Energia", natureza_despesa := "Corrente", valor := 10 }]

/-- C1 (counterexample): on a dataframe whose `orgao_superior_nome` column
contains the literal string `"<Todos>"`, the first dropdown's candidate
set excluding the sentinel is NOT the set of distinct column values: the
real value `"<Todos>"` is swallowed by the sentinel. -/
theorem cascading_candidates_cex :
    ¬ cascadeClaimAt dfSentinel SELECT_ALL SELECT_ALL := by
  rintro ⟨h1, -, -⟩
  have hmem : "<Todos>" ∈ dfSentinel.map (fun r => r.orgao_superior_nome) := by decide
  have : "<Todos>" ∈ candExcl dfSentinel (fun r => r.orgao_superior_nome) :=
    (h1 "<Todos>").mpr hmem
  rw [mem_candExcl] at this
  exact this.2 rfl

/-- A two-row dataframe with no sentinel collisions, used as concrete
input by several witnesses. -/
def dfW : List Row :=
  [{ ano_mes_referencia := "202101", orgao_superior_nome := "Justiça",
     orgao_superior_sigla := "JU", orgao_nome := "Org A", orgao_sigla := "OA",
     item_despesa := "Energia", natureza_despesa := "Corrente", valor := 100 },
   { ano_mes_referencia := "202102", orgao_superior_nome := "Economia",
     orgao_superior_sigla := "EC", orgao_nome := "Org B", orgao_sigla := "OB",
     item_despesa := "Água", natureza_despesa := "Corrente", valor := -50 }]

/-- C1 witness: the amended cascading property holds at a concrete
dataframe and concrete selections. -/
theorem cascading_candidates_amended_witness :
    cascadeClaimAt dfW "Justiça" "Org A" := by
  refine cascading_candidates_amended dfW "Justiça" "Org A" ?_ ?_ ?_ <;> decide

/-- C2: the sentinel is the identity filter — selecting `"<Todos>"` at any
level leaves the working set unchanged — while selecting any real value
(any string other than the sentinel) restricts the working set to exactly
the rows whose column value equals the selection under exact
case-sensitive string equality. -/
theorem sentinel_identity_filter (df : List Row) (col : Row → String) :
    applyFilter df col SELECT_ALL = df ∧
    ∀ v, v ≠ SELECT_ALL →
      applyFilter df col v = df.filter (fun r => col r == v) ∧
      ∀ r, r ∈ applyFilter df col v ↔ r ∈ df ∧ col r = v := by
  refine ⟨by rw [applyFilter, if_pos rfl], fun v hv => ⟨by rw [applyFilter, if_neg hv], ?_⟩⟩
  intro r
  rw [applyFilter, if_neg hv, List.mem_filter]
  simp [beq_iff_eq]

/-- C2 witness: at a concrete dataframe, the sentinel passes both rows and
a real value selects exactly the matching row. -/
theorem sentinel_identity_filter_witness :
    applyFilter dfW (fun r => r.orgao_nome) SELECT_ALL = dfW ∧
    applyFilter dfW (fun r => r.orgao_nome) "Org A" =
      dfW.filter (fun r => r.orgao_nome == "Org A") :=
  ⟨(sentinel_identity_filter dfW (fun r => r.orgao_nome)).1,
   ((sentinel_identity_filter dfW (fun r => r.orgao_nome)).2 "Org A" (by decide)).1⟩

/-- C9: the sentinel collision — the sentinel is always offered among the
candidates, selecting it passes all rows, and on a dataframe that contains
both a row whose column value is the literal string `"<Todos>"` and a row
with some other value, no selection whatsoever can isolate exactly the
rows carrying the value `"<Todos>"`. -/
theorem sentinel_collision (df : List Row) (col : Row → String) :
    SELECT_ALL ∈ candidates df col ∧
    applyFilter df col SELECT_ALL = df ∧
    ((∃ r₁ ∈ df, col r₁ = SELECT_ALL) → (∃ r₂ ∈ df, col r₂ ≠ SELECT_ALL) →
      ∀ sel, applyFilter df col sel ≠ df.filter (fun r => col r == SELECT_ALL)) := by
  refine ⟨(mem_candidates df col SELECT_ALL).mpr (Or.inr rfl),
    by rw [applyFilter, if_pos rfl], ?_⟩
  rintro ⟨r₁, hr₁, hc₁⟩ ⟨r₂, hr₂, hc₂⟩ sel heq
  by_cases hs : sel = SELECT_ALL
  · subst hs
    rw [applyFilter, if_pos rfl] at heq
    have : r₂ ∈ df.filter (fun r => col r == SELECT_ALL) := heq ▸ hr₂
    rw [List.mem_filter, beq_iff_eq] at this
    exact hc₂ this.2
  · rw [applyFilter, if_neg hs] at heq
    have h₁ : r₁ ∈ df.filter (fun r => col r == SELECT_ALL) := by
      rw [List.mem_filter, beq_iff_eq]; exact ⟨hr₁, hc₁⟩
    rw [← heq, List.mem_filter, beq_iff_eq] at h₁
    exact hs (h₁.2.symm.trans hc₁)

/-- A dataframe containing both a `"<Todos>"`-valued row and an ordinary
row in the `orgao_nome` column. -/
def dfCollide : List Row :=
  [{ ano_mes_referencia := "202101", orgao_superior_nome := "Justiça",
     orgao_superior_sigla := "JU", orgao_nome := "<Todos>", orgao_sigla := "TD",
     item_despesa := "Energia", natureza_despesa := "Corrente", valor := 1 },
   { ano_mes_referencia := "202101", orgao_superior_nome := "Justiça",
     orgao_superior_sigla := "JU", orgao_nome := "Org B", orgao_sigla := "OB",
     item_despesa := "Água", natureza_despesa := "Corrente", valor := 2 }]

/-- C9 witness: on `dfCollide`, selecting the sentinel value `"<Todos>"`
(carried by a real row) fails to isolate that row. -/
theorem sentinel_collision_witness :
    applyFilter dfCollide (fun r => r.orgao_nome) "<Todos>" ≠
      dfCollide.filter (fun r => r.orgao_nome == "<Todos>") :=
  (sentinel_collision dfCollide (fun r => r.orgao_nome)).2.2
    ⟨dfCollide.head (by decide), by constructor <;> decide⟩
    ⟨dfCollide.getLast (by decide), by constructor <;> decide⟩
    "<Todos>"

/-- C10: the dashboard's filtering never reorders, duplicates or invents
rows — for every dataset and every combination of the three selections,
the filtered working set is a sublist (order-preserving subsequence) of
the input dataframe. -/
theorem dashboard_filter_sublist (df : List Row) (filtro1 filtro2 filtro3 : String) :
    (dashboardFilter df filtro1 filtro2 filtro3).Sublist df := by
  have step : ∀ (d : List Row) (col : Row → String) (sel : String),
      (applyFilter d col sel).Sublist d := by
    intro d col sel
    rw [applyFilter]
    split
    · exact List.Sublist.refl d
    · exact List.filter_sublist d
  exact ((step _ _ filtro3).trans (step _ _ filtro2)).trans (step _ _ filtro1)

-- Aggregate lemmas.

theorem seriesMin_eq_none (l : List ℚ) : seriesMin l = none ↔ l = [] := by
  cases l with
  | nil => simp [seriesMin]
  | cons a l => rw [seriesMin]; cases seriesMin l <;> simp

theorem seriesMax_eq_none (l : List ℚ) : seriesMax l = none ↔ l = [] := by
  cases l with
  | nil => simp [seriesMax]
  | cons a l => rw [seriesMax]; cases seriesMax l <;> simp

theorem length_mul_seriesMin_le_sum (l : List ℚ) (m : ℚ)
    (hm : seriesMin l = some m) : (l.length : ℚ) * m ≤ l.sum := by
  induction l generalizing m with
  | nil => simp [seriesMin] at hm
  | cons a l ih =>
      rw [seriesMin] at hm
      cases hl : seriesMin l with
      | none =>
          rw [hl] at hm
          obtain rfl : l = [] := (seriesMin_eq_none l).mp hl
          simp at hm
          subst hm
          simp
      | some b =>
          rw [hl] at hm
          simp only [Option.some.injEq] at hm
          subst hm
          have h1 := ih b hl
          have h2 : min a b ≤ a := min_le_left a b
          have h3 : min a b ≤ b := min_le_right a b
          have h4 : (0 : ℚ) ≤ (l.length : ℚ) := by positivity
          simp only [List.length_cons, List.sum_cons]
          push_cast
          nlinarith

theorem sum_le_length_mul_seriesMax (l : List ℚ) (m : ℚ)
    (hm : seriesMax l = some m) : l.sum ≤ (l.length : ℚ) * m := by
  induction l generalizing m with
  | nil => simp [seriesMax] at hm
  | cons a l ih =>
      rw [seriesMax] at hm
      cases hl : seriesMax l with
      | none =>
          rw [hl] at hm
          obtain rfl : l = [] := (seriesMax_eq_none l).mp hl
          simp at hm
          subst hm
          simp
      | some b =>
          rw [hl] at hm
          simp only [Option.some.injEq] at hm
          subst hm
          have h1 := ih b hl
          have h2 : a ≤ max a b := le_max_left a b
          have h3 : b ≤ max a b := le_max_right a b
          have h4 : (0 : ℚ) ≤ (l.length : ℚ) := by positivity
          simp only [List.length_cons, List.sum_cons]
          push_cast
          nlinarith

/-- C4: on every non-empty dataframe the four aggregates over the `valor`
column are all defined and satisfy `min ≤ mean ≤ max` and
`sum = mean * count` (exactly, over the rationals). -/
theorem aggregate_consistency (df : List Row) (h : df ≠ []) :
    ∃ mn mx me, seriesMin (df.map Row.valor) = some mn ∧
      seriesMax (df.map Row.valor) = some mx ∧
      seriesMean (df.map Row.valor) = some me ∧
      mn ≤ me ∧ me ≤ mx ∧
      seriesSum (df.map Row.valor) = me * ((df.map Row.valor).length : ℚ) := by
  set l := df.map Row.valor with hl
  have hne : l ≠ [] := by
    intro hnil
    exact h (List.map_eq_nil_iff.mp (hl ▸ hnil))
  have hlen : 0 < (l.length : ℚ) := by
    have : 0 < l.length := List.length_pos.mpr hne
    exact_mod_cast this
  obtain ⟨mn, hmn⟩ : ∃ mn, seriesMin l = some mn := by
    cases hm : seriesMin l with
    | none => exact absurd ((seriesMin_eq_none l).mp hm) hne
    | some mn => exact ⟨mn, rfl⟩
  obtain ⟨mx, hmx⟩ : ∃ mx, seriesMax l = some mx := by
    cases hm : seriesMax l with
    | none => exact absurd ((seriesMax_eq_none l).mp hm) hne
    | some mx => exact ⟨mx, rfl⟩
  have hmean : seriesMean l = some (l.sum / (l.length : ℚ)) := by
    rw [seriesMean, if_neg]
    simp [hne]
  refine ⟨mn, mx, l.sum / (l.length : ℚ), hmn, hmx, hmean, ?_, ?_, ?_⟩
  · rw [le_div_iff₀ hlen, mul_comm]
    exact length_mul_seriesMin_le_sum l mn hmn
  · rw [div_le_iff₀ hlen, mul_comm]
    exact sum_le_length_mul_seriesMax l mx hmx
  · rw [seriesSum, div_mul_cancel₀ _ (ne_of_gt hlen)]

/-- C4 witness: the aggregates agree on the two-row concrete dataframe. -/
theorem aggregate_consistency_witness :
    ∃ mn mx me, seriesMin (dfW.map Row.valor) = some mn ∧
      seriesMax (dfW.map Row.valor) = some mx ∧
      seriesMean (dfW.map Row.valor) = some me ∧
      mn ≤ me ∧ me ≤ mx ∧
      seriesSum (dfW.map Row.valor) = me * ((dfW.map Row.valor).length : ℚ) :=
  aggregate_consistency dfW (by decide)

/-- C3: filtering by an organization value absent from the dataframe
leaves a 0-row working set, and the dashboard still renders all four
metrics with defined neutral values: min/max/mean show the NaN currency
string (pandas NaN on an empty column, `none` here) and the sum shows
zero.  Every rendering function involved is total — nothing raises. -/
theorem empty_filter_aggregates (df : List Row) (v : String)
    (hv : v ≠ SELECT_ALL) (h : ∀ r ∈ df, r.orgao_nome ≠ v) :
    dashboardFilter df SELECT_ALL v SELECT_ALL = [] ∧
    Event.metric "Mínimo" (currency none) ∈ (create_dashboard df SELECT_ALL v SELECT_ALL).1 ∧
    Event.metric "Máximo" (currency none) ∈ (create_dashboard df SELECT_ALL v SELECT_ALL).1 ∧
    Event.metric "Média" (currency none) ∈ (create_dashboard df SELECT_ALL v SELECT_ALL).1 ∧
    Event.metric "Soma" (currency (some 0)) ∈ (create_dashboard df SELECT_ALL v SELECT_ALL).1 := by
  have h2 : applyFilter df (fun r => r.orgao_nome) v = [] := by
    rw [applyFilter, if_neg hv, List.filter_eq_nil_iff]
    intro r hr
    simp [beq_iff_eq]
    exact h r hr
  have h1 : applyFilter df (fun r => r.orgao_superior_nome) SELECT_ALL = df := by
    rw [applyFilter, if_pos rfl]
  have h3 : applyFilter ([] : List Row) (fun r => r.item_despesa) SELECT_ALL = [] := by
    rw [applyFilter, if_pos rfl]
  constructor
  · rw [dashboardFilter, create_dashboard]
    rw [h1, h2, h3]
  · rw [create_dashboard, h1, h2, h3]
    refine ⟨?_, ?_, ?_, ?_⟩ <;> simp [seriesMin, seriesMax, seriesMean, seriesSum]

/-- C3 witness: at the concrete dataframe, filtering by the absent
organization "Org Z" produces the empty working set and the neutral
metric events. -/
theorem empty_filter_aggregates_witness :
    dashboardFilter dfW SELECT_ALL "Org Z" SELECT_ALL = [] ∧
    Event.metric "Mínimo" (currency none) ∈ (create_dashboard dfW SELECT_ALL "Org Z" SELECT_ALL).1 ∧
    Event.metric "Máximo" (currency none) ∈ (create_dashboard dfW SELECT_ALL "Org Z" SELECT_ALL).1 ∧
    Event.metric "Média" (currency none) ∈ (create_dashboard dfW SELECT_ALL "Org Z" SELECT_ALL).1 ∧
    Event.metric "Soma" (currency (some 0)) ∈ (create_dashboard dfW SELECT_ALL "Org Z" SELECT_ALL).1 :=
  empty_filter_aggregates dfW "Org Z" (by decide) (by decide)

-- The Dataset Assembler (`load_data` after the per-month downloads):
-- concatenation, period-to-text normalization, column selection, rename.

/-- A cell of a raw CSV dataframe: text or numeric. -/
inductive Val where
  | str (s : String)
  | num (q : ℚ)
deriving DecidableEq, Repr

/-- A raw CSV row: an association list from column name to cell value. -/
abbrev RawRow := List (String × Val)

/-- Python's `str` applied to a cell
(`df["ano_mes_referencia"].apply(str)`). -/
def pyStr : Val → Val
  | .str s => .str s
  | .num q => .str (toString q)

/-- The eight columns selected by `load_data`, in selection order. -/
def SRC_COLS : List String :=
  ["ano_mes_referencia", "orgao_superior_nome", "orgao_superior_sigla",
   "orgao_nome", "orgao_sigla", "nome_item",
   "nome_natureza_despesa_detalhada", "valor"]

/-- The schema after the rename
(`nome_item` → `item_despesa`, `nome_natureza_despesa_detalhada` →
`natureza_despesa`). -/
def OUT_COLS : List String :=
  ["ano_mes_referencia", "orgao_superior_nome", "orgao_superior_sigla",
   "orgao_nome", "orgao_sigla", "item_despesa", "natureza_despesa", "valor"]

/-- The rename map passed to `df.rename(..., axis=1)`. -/
def renameCol (c : String) : String :=
  if c = "nome_item" then "item_despesa"
  else if c = "nome_natureza_despesa_detalhada" then "natureza_despesa"
  else c

/-- Renaming the columns of one row. -/
def renameRow (r : RawRow) : RawRow := r.map (fun p => (renameCol p.1, p.2))

/-- The period-normalization step on one row:
`df["ano_mes_referencia"] = df["ano_mes_referencia"].apply(str)`. -/
def normPeriodRow : RawRow → RawRow
  | [] => []
  | (k, v) :: r =>
      (if k = "ano_mes_referencia" then (k, pyStr v) else (k, v)) :: normPeriodRow r

/-- `df[[...]]` column selection on one row: pandas raises `KeyError` on a
missing column, modelled as `none`. -/
def selectCols (r : RawRow) : List String → Option RawRow
  | [] => some []
  | c :: cs =>
      match r.lookup c, selectCols r cs with
      | some v, some rest => some ((c, v) :: rest)
      | _, _ => none

/-- The whole per-row transformation of `load_data` after concatenation:
normalize the period column, select the eight source columns, rename two
of them. -/
def assembleRow (r : RawRow) : Option RawRow :=
  (selectCols (normPeriodRow r) SRC_COLS).map renameRow

/-- Row-wise application over a dataframe, failing if any row fails. -/
def traverseRows {α : Type} (f : α → Option α) : List α → Option (List α)
  | [] => some []
  | r :: l =>
      match f r, traverseRows f l with
      | some r', some l' => some (r' :: l')
      | _, _ => none

/-- The Dataset Assembler: `pd.concat(df_list, axis=0, ignore_index=True)`
followed by the per-row normalization/selection/rename.  `ignore_index`
makes row identity positional, which the list structure provides. -/
def assemble (months : List (List RawRow)) : Option (List RawRow) :=
  traverseRows assembleRow months.flatten

theorem traverseRows_isSome {α : Type} (f : α → Option α) (l : List α)
    (h : ∀ r ∈ l, (f r).isSome) : ∃ out, traverseRows f l = some out := by
  induction l with
  | nil => exact ⟨[], rfl⟩
  | cons r l ih =>
      obtain ⟨out, hout⟩ := ih (fun x hx => h x (List.mem_cons_of_mem _ hx))
      obtain ⟨r', hr'⟩ := Option.isSome_iff_exists.mp (h r (List.mem_cons_self r l))
      exact ⟨r' :: out, by rw [traverseRows, hr', hout]⟩

theorem traverseRows_some_spec {α : Type} (f : α → Option α) (l out : List α)
    (h : traverseRows f l = some out) :
    out.length = l.length ∧ ∀ i : Nat, (l[i]?.bind f) = out[i]? := by
  induction l generalizing out with
  | nil =>
      rw [traverseRows] at h
      obtain rfl : ([] : List α) = out := Option.some.inj h
      exact ⟨rfl, fun i => by simp⟩
  | cons r l ih =>
      rw [traverseRows] at h
      cases hr : f r with
      | none => rw [hr] at h; exact absurd h (by simp)
      | some r' =>
          cases hl : traverseRows f l with
          | none => rw [hr, hl] at h; exact absurd h (by simp)
          | some l' =>
              rw [hr, hl] at h
              obtain rfl : r' :: l' = out := Option.some.inj h
              obtain ⟨hlen, hget⟩ := ih l' hl
              refine ⟨by simp [hlen], fun i => ?_⟩
              cases i with
              | zero => simp [hr]
              | succ j => simpa using hget j

theorem lookup_isSome_congr (r₁ r₂ : RawRow)
    (h : r₁.map Prod.fst = r₂.map Prod.fst) (c : String) :
    ((r₁.lookup c).isSome) = ((r₂.lookup c).isSome) := by
  induction r₁ generalizing r₂ with
  | nil =>
      cases r₂ with
      | nil => rfl
      | cons q t => simp at h
  | cons p t ih =>
      cases r₂ with
      | nil => simp at h
      | cons q s =>
          obtain ⟨p1, p2⟩ := p
          obtain ⟨q1, q2⟩ := q
          simp only [List.map_cons, List.cons.injEq] at h
          obtain ⟨hk, ht⟩ := h
          subst hk
          by_cases hc : (c == p1) = true
          · simp [List.lookup, hc]
          · simp only [List.lookup, hc]
            simp only [Bool.false_eq_true] at hc
            simp [hc, ih s ht]

theorem normPeriodRow_keys (r : RawRow) :
    (normPeriodRow r).map Prod.fst = r.map Prod.fst := by
  induction r with
  | nil => rfl
  | cons p r ih =>
      obtain ⟨k, v⟩ := p
      by_cases hk : k = "ano_mes_referencia" <;>
        simp [normPeriodRow, hk, ih]

theorem selectCols_isSome (r : RawRow) (cols : List String)
    (h : ∀ c ∈ cols, (r.lookup c).isSome) :
    ∃ r', selectCols r cols = some r' := by
  induction cols with
  | nil => exact ⟨[], rfl⟩
  | cons c cs ih =>
      obtain ⟨rest, hrest⟩ := ih (fun x hx => h x (List.mem_cons_of_mem _ hx))
      obtain ⟨v, hv⟩ := Option.isSome_iff_exists.mp (h c (List.mem_cons_self c cs))
      exact ⟨(c, v) :: rest, by rw [selectCols, hv, hrest]⟩

theorem selectCols_keys (r : RawRow) (cols : List String) (r' : RawRow)
    (h : selectCols r cols = some r') : r'.map Prod.fst = cols := by
  induction cols generalizing r' with
  | nil =>
      rw [selectCols] at h
      obtain rfl : ([] : RawRow) = r' := Option.some.inj h
      rfl
  | cons c cs ih =>
      rw [selectCols] at h
      cases hv : r.lookup c with
      | none => rw [hv] at h; exact absurd h (by simp)
      | some v =>
          cases hrest : selectCols r cs with
          | none => rw [hv, hrest] at h; exact absurd h (by simp)
          | some rest =>
              rw [hv, hrest] at h
              obtain rfl : (c, v) :: rest = r' := Option.some.inj h
              simp [ih rest hrest]

theorem renameRow_keys (r : RawRow) :
    (renameRow r).map Prod.fst = (r.map Prod.fst).map renameCol := by
  rw [renameRow, List.map_map, List.map_map]
  rfl

theorem assembleRow_isSome (r : RawRow)
    (h : ∀ c ∈ SRC_COLS, (r.lookup c).isSome) :
    (assembleRow r).isSome := by
  have h' : ∀ c ∈ SRC_COLS, ((normPeriodRow r).lookup c).isSome := by
    intro c hc
    rw [lookup_isSome_congr (normPeriodRow r) r (normPeriodRow_keys r) c]
    exact h c hc
  obtain ⟨r', hr'⟩ := selectCols_isSome (normPeriodRow r) SRC_COLS h'
  rw [assembleRow, hr']
  rfl

theorem assembleRow_keys (r row : RawRow) (h : assembleRow r = some row) :
    row.map Prod.fst = OUT_COLS := by
  rw [assembleRow] at h
  cases hs : selectCols (normPeriodRow r) SRC_COLS with
  | none => rw [hs] at h; exact absurd h (by simp)
  | some sel =>
      rw [hs] at h
      obtain rfl : renameRow sel = row := Option.some.inj h
      rw [renameRow_keys, selectCols_keys _ _ _ hs]
      decide

/-- C5: for every list of 12 well-formed monthly record sets, the
assembler succeeds and yields exactly the rows of all months concatenated
in month order with row order preserved (row `i` of the output is the
transform of row `i` of the concatenation; identity is positional because
of `ignore_index=True`), with no deduplication (the length is the sum of
the month lengths), and every output row carries exactly the eight
renamed columns — the original source names `nome_item` and
`nome_natureza_despesa_detalhada` never appear. -/
theorem assembler_concat_schema (months : List (List RawRow))
    (h12 : months.length = 12)
    (hcols : ∀ r ∈ months.flatten, ∀ c ∈ SRC_COLS, (r.lookup c).isSome) :
    ∃ out, assemble months = some out ∧
      out.length = (months.map List.length).sum ∧
      (∀ i : Nat, (months.flatten[i]?.bind assembleRow) = out[i]?) ∧
      (∀ row ∈ out, row.map Prod.fst = OUT_COLS) ∧
      OUT_COLS.length = 8 ∧
      "nome_item" ∉ OUT_COLS ∧
      "nome_natureza_despesa_detalhada" ∉ OUT_COLS := by
  obtain ⟨out, hout⟩ := traverseRows_isSome assembleRow months.flatten
    (fun r hr => assembleRow_isSome r (hcols r hr))
  obtain ⟨hlen, hget⟩ := traverseRows_some_spec assembleRow months.flatten out hout
  refine ⟨out, hout, by rw [hlen, List.length_flatten], hget, ?_, by decide, by decide, by decide⟩
  intro row hrow
  obtain ⟨i, hi⟩ := List.getElem?_of_mem hrow
  have := hget i
  rw [hi] at this
  cases hj : months.flatten[i]? with
  | none => rw [hj] at this; exact absurd this (by simp)
  | some r =>
      rw [hj] at this
      exact assembleRow_keys r row this

/-- A well-formed raw CSV row carrying all eight source columns. -/
def rawW : RawRow :=
  [("ano_mes_referencia", Val.num 202101),
   ("orgao_superior_nome", Val.str "Justiça"),
   ("orgao_superior_sigla", Val.str "JU"),
   ("orgao_nome", Val.str "Org A"),
   ("orgao_sigla", Val.str "OA"),
   ("nome_item", Val.str "Energia"),
   ("nome_natureza_despesa_detalhada", Val.str "Corrente"),
   ("valor", Val.num 100)]

/-- The twelve concrete monthly record sets used by the C5 witness. -/
def monthsW : List (List RawRow) := List.replicate 12 [rawW]

/-- C5 witness: on twelve concrete one-row months the assembler succeeds
with the concatenated, renamed output. -/
theorem assembler_concat_schema_witness :
    ∃ out, assemble monthsW = some out ∧
      out.length = (monthsW.map List.length).sum ∧
      (∀ i : Nat, (monthsW.flatten[i]?.bind assembleRow) = out[i]?) ∧
      (∀ row ∈ out, row.map Prod.fst = OUT_COLS) ∧
      OUT_COLS.length = 8 ∧
      "nome_item" ∉ OUT_COLS ∧
      "nome_natureza_despesa_detalhada" ∉ OUT_COLS :=
  assembler_concat_schema monthsW (by decide) (by decide)

-- The Narrative Insight Generator (`get_insights`) and the top-level
-- script.  Streamlit rendering is an incrementally emitted event log: an
-- `st.*` call appends its event the moment it runs, and an exception in a
-- later stage cannot remove events already emitted — which is exactly how
-- Streamlit keeps already-rendered panels on an uncaught exception.

/-- One message of a chat-completion request. -/
structure ChatMessage where
  role : String
  content : String
deriving DecidableEq, Repr

/-- One chat-completion request: `openai.ChatCompletion.create(model=...,
messages=[...])`. -/
structure ChatRequest where
  model : String
  messages : List ChatMessage
deriving DecidableEq, Repr

/-- The fixed model identifier used by both calls. -/
def MODEL_ID : String := "gpt-3.5-turbo"

/-- `str(df)` — the textual dump of the filtered dataframe embedded into
each prompt. -/
def dfDump (df : List Row) : String := reprStr df

/-- The first prompt's fixed text (the f-string of the source, up to the
embedded dataframe). -/
def insightsPromptText : String :=
  "O dataset a seguir contém dados do\n                custeio administrativo da administração pública federal.\n                Informe 10 insights sobre este dataset: "

/-- The second prompt's fixed text (explain the negative values and which
expenses have the most of them). -/
def negativesPromptText : String :=
  "Explique o porquê dos valores negativos.\n            Quais depesas possuem mais valores negativos neste dataset? "

/-- `get_insights`: emits the section header, then issues the two
chat-completion requests in order, rendering each reply as it arrives.
`env` is `os.environ.get("OPENAI_API_KEY")`; `svc` is the remote service,
which may fail (missing credential, network error, malformed response).
Returns the emitted events, the log of requests actually issued, and the
error that aborted the stage, if any. -/
def get_insights (env : Option String)
    (svc : Option String → ChatRequest → Except String String) (df : List Row) :
    List Event × List ChatRequest × Option String :=
  let req1 : ChatRequest := ⟨MODEL_ID, [⟨"user", insightsPromptText ++ dfDump df⟩]⟩
  match svc env req1 with
  | .error e => ([Event.markdown "### Insights do ChatGPT"], [req1], some e)
  | .ok c1 =>
      let req2 : ChatRequest := ⟨MODEL_ID, [⟨"user", negativesPromptText ++ dfDump df⟩]⟩
      match svc env req2 with
      | .error e =>
          ([Event.markdown "### Insights do ChatGPT", Event.markdown c1],
           [req1, req2], some e)
      | .ok c2 =>
          ([Event.markdown "### Insights do ChatGPT", Event.markdown c1,
            Event.markdown c2],
           [req1, req2], none)

/-- `ANO_ANALISE = 2021`. -/
def ANO_ANALISE : Nat := 2021

/-- The introductory `st.write` text of the script. -/
def introText : String :=
  "Despesas necessárias para o funcionamento da administração\n            pública federal no ano de " ++ toString ANO_ANALISE ++ "."

/-- The module top level: title and intro, then `create_dashboard`, then
`get_insights` on the filtered dataframe.  `df_full` stands for
`load_data(ANO_ANALISE)`. -/
def runMain (env : Option String)
    (svc : Option String → ChatRequest → Except String String)
    (df_full : List Row) (filtro1 filtro2 filtro3 : String) :
    List Event × Option String :=
  let pre := [Event.title "Custeio Administrativo", Event.text introText]
  let dash := create_dashboard df_full filtro1 filtro2 filtro3
  let ins := get_insights env svc dash.2
  (pre ++ dash.1 ++ ins.1, ins.2.2)

/-- C6: the insight stage never takes down already-rendered output — for
every credential state and service behaviour, the events emitted by the
dashboard (metrics, chart, table) are an intact prefix of the final event
log; in particular, under a service that always fails (e.g. an unset
credential) the log is exactly the dashboard output followed by just the
insight-section header. -/
theorem insight_failure_isolated (env : Option String)
    (svc : Option String → Option String → ChatRequest → Except String String)
    (df : List Row) (filtro1 filtro2 filtro3 : String) :
    (∀ key, ∃ tail, (runMain key (svc key) df filtro1 filtro2 filtro3).1 =
      ([Event.title "Custeio Administrativo", Event.text introText] ++
        (create_dashboard df filtro1 filtro2 filtro3).1) ++ tail) ∧
    (∀ e : String, (runMain env (fun _ _ => Except.error e) df filtro1 filtro2 filtro3).1 =
      ([Event.title "Custeio Administrativo", Event.text introText] ++
        (create_dashboard df filtro1 filtro2 filtro3).1) ++
      [Event.markdown "### Insights do ChatGPT"]) := by
  constructor
  · intro key
    exact ⟨(get_insights key (svc key) (create_dashboard df filtro1 filtro2 filtro3).2).1, rfl⟩
  · intro e
    rfl

/-- C7: under a service that answers every request, `get_insights` issues
exactly two chat-completion requests: both carry the fixed model
identifier and a single user-role message embedding the textual dump of
the filtered dataframe; the first asks for ten insights, the second asks
to explain the negative values — and the two requests share no
conversation context (each message list is the singleton fresh user
message, independent of the other call's reply). -/
theorem narrative_two_requests (env : Option String)
    (svc : Option String → ChatRequest → Except String String) (df : List Row)
    (hok : ∀ r, (svc env r).isOk = true) :
    (get_insights env svc df).2.1 =
      [⟨MODEL_ID, [⟨"user", insightsPromptText ++ dfDump df⟩]⟩,
       ⟨MODEL_ID, [⟨"user", negativesPromptText ++ dfDump df⟩]⟩] ∧
    (get_insights env svc df).2.1.length = 2 ∧
    ∀ req ∈ (get_insights env svc df).2.1,
      req.model = "gpt-3.5-turbo" ∧ req.messages.length = 1 ∧
      ∀ m ∈ req.messages, m.role = "user" ∧ ∃ p, m.content = p ++ dfDump df := by
  have h1 : ∃ c1, svc env ⟨MODEL_ID, [⟨"user", insightsPromptText ++ dfDump df⟩]⟩ =
      Except.ok c1 := by
    cases hc : svc env ⟨MODEL_ID, [⟨"user", insightsPromptText ++ dfDump df⟩]⟩ with
    | error e => have := hok ⟨MODEL_ID, [⟨"user", insightsPromptText ++ dfDump df⟩]⟩;
                 rw [hc] at this; exact absurd this (by simp [Except.isOk, Except.toBool])
    | ok c => exact ⟨c, rfl⟩
  have h2 : ∃ c2, svc env ⟨MODEL_ID, [⟨"user", negativesPromptText ++ dfDump df⟩]⟩ =
      Except.ok c2 := by
    cases hc : svc env ⟨MODEL_ID, [⟨"user", negativesPromptText ++ dfDump df⟩]⟩ with
    | error e => have := hok ⟨MODEL_ID, [⟨"user", negativesPromptText ++ dfDump df⟩]⟩;
                 rw [hc] at this; exact absurd this (by simp [Except.isOk, Except.toBool])
    | ok c => exact ⟨c, rfl⟩
  obtain ⟨c1, hc1⟩ := h1
  obtain ⟨c2, hc2⟩ := h2
  have hreq : (get_insights env svc df).2.1 =
      [⟨MODEL_ID, [⟨"user", insightsPromptText ++ dfDump df⟩]⟩,
       ⟨MODEL_ID, [⟨"user", negativesPromptText ++ dfDump df⟩]⟩] := by
    simp only [get_insights, hc1, hc2]
  refine ⟨hreq, by rw [hreq]; rfl, ?_⟩
  intro req hreqmem
  rw [hreq] at hreqmem
  rcases List.mem_cons.mp hreqmem with rfl | hreqmem
  · refine ⟨rfl, rfl, ?_⟩
    intro m hm
    rcases List.mem_cons.mp hm with rfl | hm
    · exact ⟨rfl, insightsPromptText, rfl⟩
    · exact absurd hm (by simp)
  · rcases List.mem_cons.mp hreqmem with rfl | hreqmem
    · refine ⟨rfl, rfl, ?_⟩
      intro m hm
      rcases List.mem_cons.mp hm with rfl | hm
      · exact ⟨rfl, negativesPromptText, rfl⟩
      · exact absurd hm (by simp)
    · exact absurd hreqmem (by simp)

/-- C7 witness: with an always-answering service on the concrete
dataframe, the two issued requests are as stated. -/
theorem narrative_two_requests_witness :
    (get_insights none (fun _ _ => Except.ok "resposta") dfW).2.1 =
      [⟨MODEL_ID, [⟨"user", insightsPromptText ++ dfDump dfW⟩]⟩,
       ⟨MODEL_ID, [⟨"user", negativesPromptText ++ dfDump dfW⟩]⟩] :=
  (narrative_two_requests none (fun _ _ => Except.ok "resposta") dfW (fun _ => rfl)).1

-- The Archive Fetcher (the download loop of `load_data`).

/-- The fixed base URL of the archive host. -/
def REPO_URL : String := "https://repositorio.dados.gov.br/seges/raio-x/"

/-- The fixed filename root of each monthly archive. -/
def FILE_PREFIX : String := "raiox"

/-- The fixed file extracted from each archive. -/
def CSV_FILE : String := "custeio-administrativo.csv"

/-- Python's `f"{m:02d}"` on a natural number: zero-pad to two digits. -/
def pad2 (n : Nat) : String := if n < 10 then "0" ++ toString n else toString n

/-- `f"{FILE_PREFIX}-{year}-{(ref + 1):02d}.zip"`. -/
def file_name (year m : Nat) : String :=
  FILE_PREFIX ++ "-" ++ toString year ++ "-" ++ pad2 m ++ ".zip"

/-- UTF-8 encoding of one character, as byte values. -/
def utf8Bytes (c : Char) : List Nat :=
  let n := c.toNat
  if n < 128 then [n]
  else if n < 2048 then [192 + n / 64, 128 + n % 64]
  else if n < 65536 then [224 + n / 4096, 128 + (n / 64) % 64, 128 + n % 64]
  else [240 + n / 262144, 128 + (n / 4096) % 64, 128 + (n / 64) % 64, 128 + n % 64]

/-- Upper-case hexadecimal digit, as used by `urllib.parse.quote`. -/
def hexDigit (n : Nat) : Char :=
  if n < 10 then Char.ofNat (48 + n) else Char.ofNat (55 + n)

/-- One percent-encoded byte: `%XX`. -/
def percentByte (b : Nat) : List Char := ['%', hexDigit (b / 16), hexDigit (b % 16)]

/-- The characters `urllib.parse.quote` leaves untouched: ASCII
alphanumerics, `_.-~`, and the default safe character `/`. -/
def isSafeChar (c : Char) : Bool :=
  c.isAlphanum || c = '_' || c = '.' || c = '-' || c = '~' || c = '/'

/-- `urllib.parse.quote` over a character list: safe characters pass
through, anything else becomes the percent-encoding of its UTF-8 bytes. -/
def quoteChars : List Char → List Char
  | [] => []
  | c :: cs =>
      (if isSafeChar c then [c] else ((utf8Bytes c).map percentByte).flatten) ++
        quoteChars cs

/-- `urllib.request.quote(file_name)`. -/
def pyQuote (s : String) : String := ⟨quoteChars s.data⟩

/-- `file_url = REPO_URL + quote(file_name)` — the percent-encoded
filename resolved against the base URL. -/
def file_url (year m : Nat) : String := REPO_URL ++ pyQuote (file_name year m)

/-- The twelve download URLs, in loop order (`for ref in range(12)`,
month `ref + 1`). -/
def load_data_urls (year : Nat) : List String :=
  (List.range 12).map (fun ref => file_url year (ref + 1))

/-- The fetch loop of `load_data`: one raw monthly stream per URL, in
month order; `fetch` stands for `urlopen`/`ZipFile`/`read_csv`. -/
def load_data_streams {α : Type} (fetch : String → α) (year : Nat) : List α :=
  (load_data_urls year).map fetch

theorem quoteChars_of_safe (l : List Char) (h : ∀ c ∈ l, isSafeChar c = true) :
    quoteChars l = l := by
  induction l with
  | nil => rfl
  | cons c cs ih =>
      rw [quoteChars, if_pos (h c (List.mem_cons_self c cs))]
      simp [ih (fun x hx => h x (List.mem_cons_of_mem _ hx))]

theorem pyQuote_of_safe (s : String) (h : ∀ c ∈ s.data, isSafeChar c = true) :
    pyQuote s = s := by
  rw [pyQuote, quoteChars_of_safe s.data h]

theorem isSafeChar_of_digit (c : Char) (h : c.isDigit = true) :
    isSafeChar c = true := by
  rw [isSafeChar, Char.isAlphanum]
  simp [h]

theorem file_name_safe (year m : Nat)
    (hy : ∀ c ∈ (toString year).data, c.isDigit = true)
    (hm : m ∈ [1, 2, 3, 4, 5, 6, 7, 8, 9, 10, 11, 12]) :
    ∀ c ∈ (file_name year m).data, isSafeChar c = true := by
  have hpre : ∀ c ∈ ( FILE_PREFIX).data, isSafeChar c = true := by decide
  have hdash : ∀ c ∈ ("-" : String).data, isSafeChar c = true := by decide
  have hzip : ∀ c ∈ (".zip" : String).data, isSafeChar c = true := by decide
  have hpad : ∀ c ∈ (pad2 m).data, isSafeChar c = true := by
    fin_cases hm <;> decide
  have hyear : ∀ c ∈ (toString year).data, isSafeChar c = true :=
    fun c hc => isSafeChar_of_digit c (hy c hc)
  intro c hc
  rw [file_name] at hc
  simp only [String.data_append, List.mem_append] at hc
  rcases hc with ((((h | h) | h) | h) | h) | h
  · exact hpre c h
  · exact hdash c h
  · exact hyear c h
  · exact hdash c h
  · exact hpad c h
  · exact hzip c h

/-- C8: the fetch loop builds, for each month `m` in `1..12` in ascending
order, the filename `raiox-<year>-<m:2digits>.zip` (month zero-padded to
two digits), percent-encodes it (a no-op here, since every character is
URL-safe), resolves it against the base URL by concatenation, and yields
exactly 12 monthly streams in that order. -/
theorem fetcher_url_construction {α : Type} (fetch : String → α) (year : Nat)
    (hy : ∀ c ∈ (toString year).data, c.isDigit = true) :
    load_data_streams fetch year =
      [1, 2, 3, 4, 5, 6, 7, 8, 9, 10, 11, 12].map
        (fun m => fetch (REPO_URL ++ pyQuote (file_name year m))) ∧
    (load_data_streams fetch year).length = 12 ∧
    (∀ m ∈ [1, 2, 3, 4, 5, 6, 7, 8, 9, 10, 11, 12],
      pyQuote (file_name year m) = file_name year m ∧
      file_name year m = FILE_PREFIX ++ "-" ++ toString year ++ "-" ++ pad2 m ++ ".zip" ∧
      (pad2 m).length = 2) ∧
    [1, 2, 3, 4, 5, 6, 7, 8, 9, 10, 11, 12].map pad2 =
      ["01", "02", "03", "04", "05", "06", "07", "08", "09", "10", "11", "12"] := by
  refine ⟨rfl, rfl, ?_, by decide⟩
  intro m hm
  exact ⟨pyQuote_of_safe _ (file_name_safe year m hy hm), rfl, by fin_cases hm <;> decide⟩

/-- C8 witness: at year 2021 with an identity fetch the loop yields the
twelve URLs as stated. -/
theorem fetcher_url_construction_witness :
    load_data_streams (fun s => s) 2021 =
      [1, 2, 3, 4, 5, 6, 7, 8, 9, 10, 11, 12].map
        (fun m => REPO_URL ++ pyQuote (file_name 2021 m)) ∧
    (load_data_streams (fun s => s) 2021).length = 12 :=
  ⟨(fetcher_url_construction (fun s => s) 2021 (by decide)).1,
   (fetcher_url_construction (fun s => s) 2021 (by decide)).2.1⟩
